import Mathlib

/-!
Verification development for the Ingestor market-data pipeline
(`Ingestor.py`, `Polygon_Client.py`, `alpha_vantage_client.py`,
`base_API_client.py`).

The Python code is shallowly embedded: Python dictionaries become
association lists over a `Value` type, exceptions become `Except PyErr`,
mutation of a caller-visible object is made explicit by returning the
final state of that object, and the network boundary (the Polygon REST
client and the Alpha Vantage HTTP GET) is an oracle parameter.  The
sequence of provider calls actually issued by a fetch is returned as an
explicit trace so that retry/dispatch behaviour is observable.
-/

namespace MarketIngest

/-- A Python/JSON value as it occurs in this code base: `None`, an int,
a string, a list, or a string-keyed dict (insertion-ordered, keys unique
in practice). Floats never flow through the claims checked here; pandas
NaN is represented by `null`. -/
inductive Value where
  | null
  | int (n : Int)
  | str (s : String)
  | list (items : List Value)
  | dict (entries : List (String × Value))

/-- A Python dict with string keys, as an insertion-ordered association
list. -/
abbrev PyDict (α : Type) := List (String × α)

/-- `d.get(k)` / `d[k]` lookup: first entry with the given key. -/
def dictGet {α : Type} (d : PyDict α) (k : String) : Option α :=
  match d with
  | [] => none
  | (k', v) :: rest => if k' = k then some v else dictGet rest k

/-- Remove every entry with the given key (Python dicts hold the key at
most once, so this is `del d[k]`). -/
def dictErase {α : Type} (d : PyDict α) (k : String) : PyDict α :=
  d.filter (fun kv => kv.1 ≠ k)

/-- `d.pop(k, default)`: the popped value (or the default) together with
the dict after the removal. -/
def dictPop {α : Type} (d : PyDict α) (k : String) (dflt : α) : α × PyDict α :=
  match dictGet d k with
  | some v => (v, dictErase d k)
  | none => (dflt, d)

/-- `d[k] = v`: overwrite in place if the key exists, else append
(Python dicts keep insertion order). -/
def dictSet {α : Type} (d : PyDict α) (k : String) (v : α) : PyDict α :=
  match d with
  | [] => [(k, v)]
  | (k', v') :: rest => if k' = k then (k, v) :: rest else (k', v') :: dictSet rest k v

/-- `k in d` for a Python dict. -/
def containsKey {α : Type} (d : PyDict α) (k : String) : Bool :=
  (dictGet d k).isSome

/-- Python truthiness of a `Value` (`if x:`). -/
def Value.truthy : Value → Bool
  | .null => false
  | .int n => n ≠ 0
  | .str s => s ≠ ""
  | .list l => !l.isEmpty
  | .dict d => !d.isEmpty

/-- Does the character list start with the given pattern? -/
def charsStartWith : List Char → List Char → Bool
  | _, [] => true
  | [], _ :: _ => false
  | c :: cs, p :: ps => c == p && charsStartWith cs ps

/-- The characters after the first occurrence of `sep`, or `none` when
`sep` does not occur (left-to-right scan, as Python `str.split`
scans). -/
def afterSep (sep : List Char) : List Char → Option (List Char)
  | [] => none
  | c :: cs =>
    if charsStartWith (c :: cs) sep then some ((c :: cs).drop sep.length)
    else afterSep sep cs

/-- The characters before the next occurrence of `sep` (all of them when
`sep` does not occur). -/
def takeUntilSep (sep : List Char) : List Char → List Char
  | [] => []
  | c :: cs => if charsStartWith (c :: cs) sep then [] else c :: takeUntilSep sep cs

/-- Python substring test `pat in s` for a nonempty pattern. -/
def strContains (s pat : String) : Bool :=
  (afterSep pat.data s.data).isSome

/-- `s.lower()`. -/
def strLower (s : String) : String := ⟨s.data.map Char.toLower⟩

/-- The Python exceptions this code can raise.  `exc tag` stands for an
arbitrary exception object coming out of the network layer; distinct
tags are distinct objects. -/
inductive PyErr where
  | valueError (msg : String)
  | keyError (key : String)
  | typeError (msg : String)
  | attributeError (msg : String)
  | exc (tag : Nat)
deriving DecidableEq

/-! ## Polygon client (`Polygon_Client.py`) -/

/-- One invocation of the official Polygon REST client, with the
argument values taken from the feature dict exactly as in the four
lambdas of `endpoint_mapping` in `PolygonClient.fetch_data`. -/
inductive ProviderCall where
  | get_aggs (ticker multiplier timespan from_ to_ : Value)
  | get_grouped_daily_aggs (date : Value)
  | get_daily_open_close_agg (ticker date : Value)
  | get_previous_close_agg (ticker : Value)

/-- The raw object returned by a Polygon call: a dict, a list, or some
other object whose `__dict__` is `attrs` (the `response.__dict__`
coercion in `parse_response`). -/
inductive Resp where
  | dict (d : PyDict Value)
  | list (items : List Value)
  | obj (attrs : PyDict Value)

/-- The `{"data": response, "features": features}` package returned by
`PolygonClient.fetch_data`. -/
structure RawPackage where
  data : Resp
  features : PyDict Value

/-- `f[k]` on a feature dict: `KeyError` when the key is absent. -/
def getItem (f : PyDict Value) (k : String) : Except PyErr Value :=
  match dictGet f k with
  | some v => .ok v
  | none => .error (.keyError k)

/-- Evaluate the lambda `endpoint_mapping[et]` on the feature dict up to
(but not including) the network call: the keyword arguments are read
from the dict (raising `KeyError` on a missing key, ticker first, as
Python evaluates them) and packaged as the `ProviderCall` about to be
issued.  Indices other than 0-3 never reach this function because
`fetch_data` checks membership in `endpoint_mapping` first. -/
def buildCall : Nat → PyDict Value → Except PyErr ProviderCall
  | 0, f =>
    match dictGet f "ticker" with
    | none => .error (.keyError "ticker")
    | some ticker =>
      match dictGet f "multiplier" with
      | none => .error (.keyError "multiplier")
      | some multiplier =>
        match dictGet f "timespan" with
        | none => .error (.keyError "timespan")
        | some timespan =>
          match dictGet f "from" with
          | none => .error (.keyError "from")
          | some from_ =>
            match dictGet f "to" with
            | none => .error (.keyError "to")
            | some to_ => .ok (.get_aggs ticker multiplier timespan from_ to_)
  | 1, f =>
    match dictGet f "from" with
    | none => .error (.keyError "from")
    | some date => .ok (.get_grouped_daily_aggs date)
  | 2, f =>
    match dictGet f "ticker" with
    | none => .error (.keyError "ticker")
    | some ticker =>
      match dictGet f "from" with
      | none => .error (.keyError "from")
      | some date => .ok (.get_daily_open_close_agg ticker date)
  | 3, f =>
    match dictGet f "ticker" with
    | none => .error (.keyError "ticker")
    | some ticker => .ok (.get_previous_close_agg ticker)
  | _, _ => .error (.valueError "unreachable: guarded by the membership check")

/-- `endpoint_type in endpoint_mapping` (and likewise `in parsers`): the
dict keys are the Python ints 0,1,2,3, so a `Value` is a member exactly
when it is one of those ints; the index is returned. -/
def endpointIndex : Value → Option Nat
  | .int n =>
    if n = 0 then some 0
    else if n = 1 then some 1
    else if n = 2 then some 2
    else if n = 3 then some 3
    else none
  | _ => none

/-- The `while attempts < max_attempts` retry loop of
`PolygonClient.fetch_data`, with `max_attempts = 3` as in the source.
`respond a c` is the outcome of issuing provider call `c` on attempt
`a` (0-based).  The second component is the trace of provider calls
actually issued.  `fuel` is `max_attempts - attempts`; the fuel-0 case
is the loop falling through, where the Python function returns `None`
(unreachable from `fetch_data`, represented as a `TypeError`). -/
def retryLoop (respond : Nat → ProviderCall → Except PyErr Resp)
    (et : Nat) (features : PyDict Value) :
    Nat → Nat → Except PyErr RawPackage × List ProviderCall
  | _, 0 => (.error (.typeError "loop fell through: Python returns None"), [])
  | attempts, fuel + 1 =>
    match buildCall et features with
    | .error e =>
      if attempts + 1 = 3 then (.error e, [])
      else retryLoop respond et features (attempts + 1) fuel
    | .ok c =>
      match respond attempts c with
      | .ok response => (.ok ⟨response, features⟩, [c])
      | .error e =>
        if attempts + 1 = 3 then (.error e, [c])
        else
          let r := retryLoop respond et features (attempts + 1) fuel
          (r.1, c :: r.2)

/-- `PolygonClient.fetch_data`: read `endpoint_type` (default 0), reject
values outside `endpoint_mapping` with `ValueError` before any network
activity, then run the retry loop (3 attempts, the delay between
attempts has no observable effect here). -/
def fetch_data (respond : Nat → ProviderCall → Except PyErr Resp)
    (features : PyDict Value) : Except PyErr RawPackage × List ProviderCall :=
  let endpoint_type := (dictGet features "endpoint_type").getD (.int 0)
  match endpointIndex endpoint_type with
  | none => (.error (.valueError "Invalid endpoint_type"), [])
  | some et => retryLoop respond et features 0 3

/-- The hardcoded column list returned by `PolygonClient.parse_aggs`. -/
def parse_aggs : List String :=
  ["volume", "vwap", "open_price", "close_price", "high_price", "low_price",
   "timestamp", "transactions"]

/-- The hardcoded column list returned by
`PolygonClient.parse_grouped_daily`. -/
def parse_grouped_daily : List String :=
  ["company_identifier", "volume", "vwap", "open_price", "close_price",
   "high_price", "low_price", "timestamp", "transactions"]

/-- The hardcoded column list returned by
`PolygonClient.parse_daily_open_close`. -/
def parse_daily_open_close : List String :=
  ["open_price", "close_price", "high_price", "company_identifier"]

/-- The `parsers` mapping of `PolygonClient.parse_response`: 0 and 3 map
to `parse_aggs`, 1 to `parse_grouped_daily`, 2 to
`parse_daily_open_close`.  Only indices produced by `endpointIndex` are
ever passed in. -/
def parsersCols : Nat → List String
  | 1 => parse_grouped_daily
  | 2 => parse_daily_open_close
  | _ => parse_aggs

/-- A Polygon-side tabular dataset: the ordered list of records handed
to `pd.DataFrame`.  Its row count is the list length; the numeric
content of cells is irrelevant to the checked claims. -/
abbrev PolyDF := List Value

/-- `pd.DataFrame(x)` as used in `parse_response`: `x` is always a list
of records there; other shapes of `results` are outside the model. -/
def dfOfRecords : Value → Except PyErr PolyDF
  | .list rs => .ok rs
  | _ => .error (.typeError "unmodeled pandas DataFrame input")

/-- The `response.__dict__` coercion: a non-dict non-list object is
replaced by its attribute dict. -/
def coerceResp : Resp → Resp
  | .obj attrs => .dict attrs
  | r => r

/-- The shape-dispatch of `parse_response`: a dict with a `results` key
yields that list, any other dict is wrapped as a single record, a list
is taken as-is. -/
def extractRecords : Resp → Except PyErr (List Value)
  | .dict d =>
    if containsKey d "results" then dfOfRecords ((dictGet d "results").getD .null)
    else .ok [.dict d]
  | .list items => .ok items
  | .obj _ => .error (.typeError "unreachable after the coercion")

/-- `PolygonClient.parse_response`.  The second component is the state
of the envelope after the call: the Python body only rebinds locals and
never writes through `response_package`, so the envelope is returned
unchanged. -/
def parse_response (pkg : RawPackage) :
    Except PyErr (PolyDF × List String) × RawPackage :=
  let endpoint_type := (dictGet pkg.features "endpoint_type").getD (.int 0)
  let result : Except PyErr (PolyDF × List String) :=
    match extractRecords (coerceResp pkg.data) with
    | .error e => .error e
    | .ok results =>
      match endpointIndex endpoint_type with
      | none => .error (.valueError "No parser available for endpoint_type")
      | some et => .ok (results, parsersCols et)
  (result, pkg)

/-- Column labels of `pd.DataFrame(records)` for dict records: the
union of the record keys in first-appearance order (rows that are not
dicts contribute the unmodeled positional columns and are ignored
here). -/
def dfColumns (df : PolyDF) : List String :=
  df.foldl
    (fun acc r =>
      match r with
      | .dict entries =>
        entries.foldl (fun a kv => if a.contains kv.1 then a else a ++ [kv.1]) acc
      | _ => acc)
    []

/-- Modelled behaviour of `pandas.DataFrame.describe()` as called by
`compute_statistics`: on a frame with no columns (in particular the
empty frame `pd.DataFrame()` coming from zero records) pandas raises
`ValueError("Cannot describe a DataFrame without columns")`; otherwise
it returns a per-column summary, abstracted here to the list of
described columns (the float content of the summary is not modeled). -/
def pandasDescribe (df : PolyDF) : Except PyErr (List String) :=
  if (dfColumns df).isEmpty then
    .error (.valueError "Cannot describe a DataFrame without columns")
  else .ok (dfColumns df)

/-- `df.isnull().sum()[col]`: missing cells of a column are records that
lack the key or hold NaN (`null`). -/
def missingCount (df : PolyDF) (col : String) : Nat :=
  df.countP
    (fun r =>
      match r with
      | .dict entries =>
        match dictGet entries col with
        | none => true
        | some .null => true
        | some _ => false
      | _ => false)

/-- The statistics dict built by `PolygonClient.compute_statistics`,
with the float-valued summaries abstracted to the column keys they are
computed over. -/
structure PolyStats where
  descriptive_stats : List String
  missing_values : List (String × Nat)
  skewness : List String
  kurtosis : List String

/-- `PolygonClient.compute_statistics`: `describe` runs first and
unguarded, so a frame without columns raises before any of the other
summaries are produced. -/
def compute_statistics (df : PolyDF) : Except PyErr PolyStats :=
  match pandasDescribe df with
  | .error e => .error e
  | .ok described =>
    .ok ⟨described, (dfColumns df).map (fun c => (c, missingCount df c)),
         dfColumns df, dfColumns df⟩

/-! ## Ingestion router (`Ingestor.py`) -/

/-- `Ingestor.process_features` with the Polygon network oracle
`respond` (the registry built in `Ingestor.__init__` holds the single
key `polygon`).  The first component is the returned triple or the
propagated exception; the second component is the caller-supplied
feature dict after the call — the body takes a snapshot copy
(`original_features`, kept for the disabled feature check) and then
pops `api` from the caller's dict itself, which is the only mutation of
caller-visible state in the pipeline.  A non-string `api` value that is
unhashable would raise `TypeError` at the registry lookup; hashable
non-`polygon` values fail the truthiness check on the lookup result and
raise `ValueError`. -/
def process_features (respond : Nat → ProviderCall → Except PyErr Resp)
    (features : PyDict Value) :
    Except PyErr (PolyDF × List String × PolyStats) × PyDict Value :=
  let popped := dictPop features "api" (.str "polygon")
  let api_choice := popped.1
  let featuresAfterPop := popped.2
  let result : Except PyErr (PolyDF × List String × PolyStats) :=
    match api_choice with
    | .str s =>
      if s = "polygon" then
        match (fetch_data respond featuresAfterPop).1 with
        | .error e => .error e
        | .ok pkg =>
          match (parse_response pkg).1 with
          | .error e => .error e
          | .ok (results, gathered) =>
            match compute_statistics results with
            | .error e => .error e
            | .ok stats => .ok (results, gathered, stats)
      else .error (.valueError "No client found for API")
    | .list _ => .error (.typeError "unhashable type in registry lookup")
    | .dict _ => .error (.typeError "unhashable type in registry lookup")
    | _ => .error (.valueError "No client found for API")
  (result, featuresAfterPop)

/-! ## Alpha Vantage client (`alpha_vantage_client.py`) -/

/-- `self._standard_columns`: the canonical OHLCV column names. -/
def standard_columns : List String := ["open", "high", "low", "close", "volume"]

/-- The `{"data": ..., "features": ...}` package returned by
`AlphaVantageClient.fetch_data`; the JSON body of every response this
client handles is an object, so `data` is a dict. -/
structure AVPackage where
  data : PyDict Value
  features : PyDict Value

/-- The key scan of `parse_response`: the first key of the payload that
contains the substring `Time Series`, in insertion order, if any. -/
def av_find_ts_key (data : PyDict Value) : Option String :=
  match data with
  | [] => none
  | (k, _) :: rest => if strContains k "Time Series" then some k else av_find_ts_key rest

/-- The column rename `x.split('. ')[1] if '. ' in x else x` that strips
the Alpha Vantage ordinal from a field name such as `1. open`: piece 1
of the split is the text after the first `. ` up to the next `. `. -/
def av_strip (x : String) : String :=
  match afterSep ['.', ' '] x.data with
  | none => x
  | some rest => ⟨takeUntilSep ['.', ' '] rest⟩

/-- The per-timestamp records of a time-series payload, each required to
be a mapping (that is what `pd.DataFrame.from_dict(..., orient='index')`
receives from this API; other shapes are outside the model). -/
def allDictRecords : List (String × Value) → Except PyErr (List (String × PyDict Value))
  | [] => .ok []
  | (k, .dict d) :: rest =>
    match allDictRecords rest with
    | .error e => .error e
    | .ok rs => .ok ((k, d) :: rs)
  | (_, _) :: _ => .error (.typeError "non-mapping record (unmodeled)")

/-- Accumulate the column labels of a record in first-appearance
order. -/
def addCols (acc : List String) (record : PyDict Value) : List String :=
  record.foldl (fun a kv => if a.contains kv.1 then a else a ++ [kv.1]) acc

/-- `pd.DataFrame.from_dict(ts, orient='index')`: row index = the keys
of `ts` in order, columns = union of the record keys in
first-appearance order, each cell the record's value for that column or
NaN (`null`) when absent.  Returns `(index, columns, cells)`. -/
def av_from_dict (ts : PyDict Value) :
    Except PyErr (List String × List String × List (List Value)) :=
  match allDictRecords ts with
  | .error e => .error e
  | .ok recs =>
    let cols := recs.foldl (fun a r => addCols a r.2) []
    let cells := recs.map (fun r => cols.map (fun c => (dictGet r.2 c).getD .null))
    .ok (recs.map (fun r => r.1), cols, cells)

/-- Apply a fallible function to every element, failing on the first
error — the shape of `pd.to_datetime` over the whole index. -/
def mapExcept {α β : Type} (f : α → Except PyErr β) : List α → Except PyErr (List β)
  | [] => .ok []
  | a :: as =>
    match f a with
    | .error e => .error e
    | .ok b =>
      match mapExcept f as with
      | .error e => .error e
      | .ok bs => .ok (b :: bs)

/-- Insert one indexed row into a row list sorted by ascending index. -/
def insertRow (x : Int × List Value) : List (Int × List Value) → List (Int × List Value)
  | [] => [x]
  | y :: ys => if x.1 ≤ y.1 then x :: y :: ys else y :: insertRow x ys

/-- `df.sort_index()`: sort the rows by ascending (already parsed)
datetime index. -/
def avSortRows (index : List Int) (cells : List (List Value)) :
    List Int × List (List Value) :=
  let rows := (index.zip cells).foldr insertRow []
  (rows.map (fun r => r.1), rows.map (fun r => r.2))

/-- `df[sel]` column selection: keep, for each selected label, the cell
of its first occurrence among the current columns. -/
def selectCols (cols : List String) (cells : List (List Value)) (sel : List String) :
    List (List Value) :=
  cells.map
    (fun row =>
      sel.map
        (fun c =>
          match cols.findIdx? (fun c2 => c2 == c) with
          | some i => row.getD i .null
          | none => .null))

/-- `available_standard_cols`: the canonical columns actually present
among the (renamed) frame columns, in canonical order. -/
def av_available (cols1 : List String) : List String :=
  standard_columns.filter (fun c => cols1.contains c)

/-- `col in df.columns` for an element of the caller's `columns` list:
only a string can equal a column label. -/
def valMemCols (c : Value) (cols : List String) : Bool :=
  match c with
  | .str s => cols.contains s
  | _ => false

/-- Extract the string from a column entry (the final filter keeps only
values equal to some column label, hence only strings). -/
def valStr : Value → Option String
  | .str s => some s
  | _ => none

/-- Iterate a Python value as the `columns` list is iterated.  The
claims only exercise list values (the default is the standard-columns
list); iterating other shapes (strings, dicts) is outside the model. -/
def asIterable : Value → Except PyErr (List Value)
  | .list l => .ok l
  | _ => .error (.typeError "not iterable (unmodeled)")

/-- The normalized Alpha Vantage dataset: parsed ascending datetime
index, final column labels, and the cell grid. -/
structure AVFrame where
  index : List Int
  cols : List String
  cells : List (List Value)

/-- The body of the `try` block of `AlphaVantageClient.parse_response`:
tabulate the time-series mapping, strip the ordinal column name
part, parse and sort the datetime index (`toDT` models
`pd.to_datetime` on one index entry), restrict to the canonical columns
present, convert cells to numbers (`toNum` models `pd.to_numeric(...,
errors='coerce')`, which never fails), then keep the caller-requested
columns that survived. -/
def av_parse_series (toDT : String → Except PyErr Int) (toNum : Value → Value)
    (columns_to_include : Value) (ts : Value) :
    Except PyErr (AVFrame × List Value) :=
  match ts with
  | .dict entries =>
    match av_from_dict entries with
    | .error e => .error e
    | .ok (idx, cols0, cells) =>
      let cols1 := cols0.map av_strip
      match mapExcept toDT idx with
      | .error e => .error e
      | .ok idxI =>
        let sorted := avSortRows idxI cells
        let available := av_available cols1
        let cellsStd := selectCols cols1 sorted.2 available
        let cellsNum := cellsStd.map (fun row => row.map toNum)
        match asIterable columns_to_include with
        | .error e => .error e
        | .ok req =>
          let final := req.filter (fun c => valMemCols c available)
          let finalStrs := final.filterMap valStr
          .ok (⟨sorted.1, finalStrs, selectCols available cellsNum finalStrs⟩, final)
  | _ => .error (.typeError "from_dict expects a mapping")

/-- `AlphaVantageClient.parse_response`.  The `columns` request is read
first (line 121), then the payload keys are scanned for a
`Time Series` marker; with no such key, a truthy `Meta Data` value
yields the valid-but-empty result and anything else raises
`ValueError`; with the key, any failure inside the `try` block is
re-raised as `ValueError("Failed to parse time series data")`.  The
second component is the envelope after the call: the body never writes
through `response_package` (the `inplace` renames act on the freshly
built frame), so it is returned unchanged. -/
def av_parse_response (toDT : String → Except PyErr Int) (toNum : Value → Value)
    (pkg : AVPackage) : Except PyErr (AVFrame × List Value) × AVPackage :=
  let columns_to_include : Value :=
    (dictGet pkg.features "columns").getD (.list (standard_columns.map Value.str))
  let result : Except PyErr (AVFrame × List Value) :=
    match av_find_ts_key pkg.data with
    | none =>
      if ((dictGet pkg.data "Meta Data").getD .null).truthy then
        .ok (⟨[], [], []⟩, [])
      else .error (.valueError "Could not find time series data key")
    | some key =>
      match av_parse_series toDT toNum columns_to_include
          ((dictGet pkg.data key).getD .null) with
      | .ok r => .ok r
      | .error _ => .error (.valueError "Failed to parse time series data")
  (result, pkg)

/-- The query-parameter construction of `AlphaVantageClient.fetch_data`
up to the HTTP call: the base parameters, then the
timespan-to-function mapping with its output-size defaults, the
intraday `interval`, and the `month` passthrough.  A missing `ticker`
is a `KeyError`; an unsupported timespan is the `ValueError` of the
final `else`; a non-string timespan would fail at `.lower()`. -/
def av_build_params (apiKey : String) (features : PyDict Value) :
    Except PyErr (PyDict Value) :=
  match dictGet features "ticker" with
  | none => .error (.keyError "ticker")
  | some tk =>
    let params : PyDict Value :=
      [("symbol", tk), ("apikey", .str apiKey), ("datatype", .str "json")]
    match (dictGet features "timespan").getD (.str "day") with
    | .str raw =>
      let timespan := strLower raw
      if timespan = "day" then
        .ok (dictSet (dictSet params "function" (.str "TIME_SERIES_DAILY"))
              "outputsize" ((dictGet features "outputsize").getD (.str "full")))
      else if timespan = "week" then
        .ok (dictSet (dictSet params "function" (.str "TIME_SERIES_WEEKLY"))
              "outputsize" ((dictGet features "outputsize").getD (.str "full")))
      else if timespan = "month" then
        .ok (dictSet (dictSet params "function" (.str "TIME_SERIES_MONTHLY"))
              "outputsize" ((dictGet features "outputsize").getD (.str "full")))
      else if ["1min", "5min", "15min", "30min", "60min"].contains timespan then
        let p1 := dictSet params "function" (.str "TIME_SERIES_INTRADAY")
        let p2 := dictSet p1 "interval" (.str timespan)
        let p3 := dictSet p2 "outputsize" ((dictGet features "outputsize").getD (.str "compact"))
        if containsKey features "month" then
          let p4 := dictSet p3 "month" ((dictGet features "month").getD .null)
          .ok (dictSet p4 "outputsize" ((dictGet features "outputsize").getD (.str "full")))
        else .ok p3
      else .error (.valueError "Unsupported timespan for Alpha Vantage")
    | _ => .error (.attributeError "lower")

/-- `AlphaVantageClient.fetch_data`: build the query parameters, issue
the single GET (`http` covers `requests.get`, `raise_for_status` and
`.json()`; there is no retry loop in this client), then apply the
post-call checks: an empty JSON object is fatal, an `Error Message` key
is fatal, the rate-limit `Note` is print-only and has no semantic
effect.  The second component records the query parameters of the GET
actually issued, if one was. -/
def av_fetch_data (http : PyDict Value → Except PyErr (PyDict Value))
    (apiKey : String) (features : PyDict Value) :
    Except PyErr AVPackage × Option (PyDict Value) :=
  match av_build_params apiKey features with
  | .error e => (.error e, none)
  | .ok params =>
    match http params with
    | .error e => (.error e, some params)
    | .ok data =>
      if data.isEmpty then
        (.error (.valueError "Alpha Vantage API returned an empty response."), some params)
      else if containsKey data "Error Message" then
        (.error (.valueError "Alpha Vantage API Error"), some params)
      else (.ok ⟨data, features⟩, some params)

/-! ## Helper lemmas -/

theorem dictGet_cons {α : Type} (kv : String × α) (rest : PyDict α) (k : String) :
    dictGet (kv :: rest) k = if kv.1 = k then some kv.2 else dictGet rest k := by
  rcases kv with ⟨k', v⟩
  rfl

theorem dictErase_cons {α : Type} (kv : String × α) (rest : PyDict α) (k : String) :
    dictErase (kv :: rest) k =
      if kv.1 = k then dictErase rest k else kv :: dictErase rest k := by
  by_cases h : kv.1 = k <;> simp [dictErase, List.filter_cons, h]

theorem dictGet_dictErase_self {α : Type} (d : PyDict α) (k : String) :
    dictGet (dictErase d k) k = none := by
  induction d with
  | nil => rfl
  | cons kv rest ih =>
    rw [dictErase_cons]
    by_cases h : kv.1 = k
    · rw [if_pos h]
      exact ih
    · rw [if_neg h, dictGet_cons, if_neg h]
      exact ih

theorem dictGet_dictErase_ne {α : Type} (d : PyDict α) (k k' : String) (h : k' ≠ k) :
    dictGet (dictErase d k) k' = dictGet d k' := by
  induction d with
  | nil => rfl
  | cons kv rest ih =>
    rw [dictErase_cons]
    by_cases hk : kv.1 = k
    · have hne : ¬kv.1 = k' := fun he => h (by rw [← he, hk])
      rw [if_pos hk, ih, dictGet_cons, if_neg hne]
    · rw [if_neg hk, dictGet_cons, dictGet_cons]
      by_cases hk' : kv.1 = k'
      · rw [if_pos hk', if_pos hk']
      · rw [if_neg hk', if_neg hk']
        exact ih

theorem dictErase_of_get_none {α : Type} (d : PyDict α) (k : String)
    (h : dictGet d k = none) : dictErase d k = d := by
  induction d with
  | nil => rfl
  | cons kv rest ih =>
    rw [dictGet_cons] at h
    by_cases hk : kv.1 = k
    · rw [if_pos hk] at h
      exact Option.noConfusion h
    · rw [if_neg hk] at h
      rw [dictErase_cons, if_neg hk, ih h]

theorem retryLoop_step_ok (respond : Nat → ProviderCall → Except PyErr Resp)
    (et : Nat) (features : PyDict Value) (a fuel : Nat) (c : ProviderCall) (response : Resp)
    (hc : buildCall et features = .ok c) (hr : respond a c = .ok response) :
    retryLoop respond et features a (fuel + 1) = (.ok ⟨response, features⟩, [c]) := by
  conv_lhs => rw [retryLoop]
  rw [hc]
  simp [hr]

theorem retryLoop_step_error (respond : Nat → ProviderCall → Except PyErr Resp)
    (et : Nat) (features : PyDict Value) (a fuel : Nat) (c : ProviderCall) (e : PyErr)
    (hc : buildCall et features = .ok c) (hr : respond a c = .error e) (ha : a + 1 ≠ 3) :
    retryLoop respond et features a (fuel + 1) =
      ((retryLoop respond et features (a + 1) fuel).1,
       c :: (retryLoop respond et features (a + 1) fuel).2) := by
  have ha2 : a ≠ 2 := by omega
  conv_lhs => rw [retryLoop]
  rw [hc]
  simp [hr, ha, ha2]

theorem retryLoop_step_error_last (respond : Nat → ProviderCall → Except PyErr Resp)
    (et : Nat) (features : PyDict Value) (a fuel : Nat) (c : ProviderCall) (e : PyErr)
    (hc : buildCall et features = .ok c) (hr : respond a c = .error e) (ha : a + 1 = 3) :
    retryLoop respond et features a (fuel + 1) = (.error e, [c]) := by
  have ha2 : a = 2 := by omega
  subst ha2
  conv_lhs => rw [retryLoop]
  rw [hc]
  simp [hr]

theorem retryLoop_trace_head (respond : Nat → ProviderCall → Except PyErr Resp)
    (et : Nat) (features : PyDict Value) (c : ProviderCall)
    (hc : buildCall et features = .ok c) (a fuel : Nat) :
    ((retryLoop respond et features a (fuel + 1)).2).head? = some c := by
  cases hr : respond a c with
  | ok response =>
    rw [retryLoop_step_ok respond et features a fuel c response hc hr]
    rfl
  | error e =>
    by_cases h : a + 1 = 3
    · rw [retryLoop_step_error_last respond et features a fuel c e hc hr h]
      rfl
    · rw [retryLoop_step_error respond et features a fuel c e hc hr h]
      rfl

theorem fetch_data_valid (respond : Nat → ProviderCall → Except PyErr Resp)
    (features : PyDict Value) (et : Nat)
    (het : endpointIndex ((dictGet features "endpoint_type").getD (.int 0)) = some et) :
    fetch_data respond features = retryLoop respond et features 0 3 := by
  simp only [fetch_data]
  rw [het]

theorem fetch_data_invalid (respond : Nat → ProviderCall → Except PyErr Resp)
    (features : PyDict Value)
    (hnone : endpointIndex ((dictGet features "endpoint_type").getD (.int 0)) = none) :
    fetch_data respond features = (.error (.valueError "Invalid endpoint_type"), []) := by
  simp only [fetch_data]
  rw [hnone]

/-! ## The claims -/

/-- Claim C1, counterexample to the claim as stated: for the request
`{'api': 'polygon', 'ticker': 'AAPL'}` the caller's mapping no longer
contains the key `api` after `process_features` returns — the routing
key is popped from the caller-supplied dict itself, not only from a
copy. -/
theorem ingestor_mutates_caller_request_cex :
    dictGet ([("api", Value.str "polygon"), ("ticker", Value.str "AAPL")] : PyDict Value) "api" =
      some (Value.str "polygon") ∧
    dictGet ((process_features (fun _ _ => .error (.exc 0))
      ([("api", Value.str "polygon"), ("ticker", Value.str "AAPL")] : PyDict Value)).2) "api" =
      none :=
  ⟨rfl, rfl⟩

/-- Claim C1, amended: `process_features` keeps an unmodified internal
copy of the request, but strips the routing key `api` from the
caller-supplied mapping itself: after the call the caller's object no
longer contains `api`, while every other key keeps its value. -/
theorem ingestor_strips_api_from_caller_map
    (respond : Nat → ProviderCall → Except PyErr Resp) (features : PyDict Value) :
    (process_features respond features).2 = dictErase features "api" ∧
    dictGet (process_features respond features).2 "api" = none ∧
    ∀ k, k ≠ "api" →
      dictGet (process_features respond features).2 k = dictGet features k := by
  have hpop : (process_features respond features).2 = dictErase features "api" := by
    show (dictPop features "api" (Value.str "polygon")).2 = dictErase features "api"
    unfold dictPop
    cases h : dictGet features "api" with
    | some v => rfl
    | none => simpa using (dictErase_of_get_none features "api" h).symm
  refine ⟨hpop, ?_, ?_⟩
  · rw [hpop]
    exact dictGet_dictErase_self features "api"
  · intro k hk
    rw [hpop]
    exact dictGet_dictErase_ne features "api" k hk

/-- Claim C1, witness for the amended theorem at the concrete request
of the counterexample: `ticker` survives with its value and `api` is
gone. -/
theorem ingestor_strips_api_witness :
    dictGet ((process_features (fun _ _ => .error (.exc 0))
      ([("api", Value.str "polygon"), ("ticker", Value.str "AAPL")] : PyDict Value)).2) "ticker" =
      some (Value.str "AAPL") ∧
    dictGet ((process_features (fun _ _ => .error (.exc 0))
      ([("api", Value.str "polygon"), ("ticker", Value.str "AAPL")] : PyDict Value)).2) "api" =
      none := by
  have h := ingestor_strips_api_from_caller_map (fun _ _ => .error (.exc 0))
    ([("api", Value.str "polygon"), ("ticker", Value.str "AAPL")] : PyDict Value)
  exact ⟨(h.2.2 "ticker" (by decide)).trans rfl, h.2.1⟩

/-- Claim C2: with a well-formed request (valid endpoint, required keys
present so the provider call `c` is built), if the provider raises on
attempts 1 and 2 and succeeds on attempt 3 then `fetch_data` returns
the attempt-3 response with no error; if all three attempts raise, the
exception object of the third attempt propagates unchanged.  In both
cases the call trace is exactly three provider invocations — no fourth
attempt happens. -/
theorem polygon_fetch_retry_policy
    (respond : Nat → ProviderCall → Except PyErr Resp) (features : PyDict Value)
    (c : ProviderCall) (et : Nat)
    (het : endpointIndex ((dictGet features "endpoint_type").getD (.int 0)) = some et)
    (hc : buildCall et features = .ok c) :
    (∀ e1 e2 response, respond 0 c = .error e1 → respond 1 c = .error e2 →
      respond 2 c = .ok response →
      fetch_data respond features = (.ok ⟨response, features⟩, [c, c, c])) ∧
    (∀ e1 e2 e3, respond 0 c = .error e1 → respond 1 c = .error e2 →
      respond 2 c = .error e3 →
      fetch_data respond features = (.error e3, [c, c, c])) := by
  have hfd : fetch_data respond features = retryLoop respond et features 0 3 :=
    fetch_data_valid respond features et het
  constructor
  · intro e1 e2 response h0 h1 h2
    have t2 : retryLoop respond et features 2 1 = (.ok ⟨response, features⟩, [c]) :=
      retryLoop_step_ok respond et features 2 0 c response hc h2
    have t1 : retryLoop respond et features 1 2 =
        ((retryLoop respond et features 2 1).1, c :: (retryLoop respond et features 2 1).2) :=
      retryLoop_step_error respond et features 1 1 c e2 hc h1 (by decide)
    have t0 : retryLoop respond et features 0 3 =
        ((retryLoop respond et features 1 2).1, c :: (retryLoop respond et features 1 2).2) :=
      retryLoop_step_error respond et features 0 2 c e1 hc h0 (by decide)
    rw [hfd, t0, t1, t2]
  · intro e1 e2 e3 h0 h1 h2
    have t2 : retryLoop respond et features 2 1 = (.error e3, [c]) :=
      retryLoop_step_error_last respond et features 2 0 c e3 hc h2 (by decide)
    have t1 : retryLoop respond et features 1 2 =
        ((retryLoop respond et features 2 1).1, c :: (retryLoop respond et features 2 1).2) :=
      retryLoop_step_error respond et features 1 1 c e2 hc h1 (by decide)
    have t0 : retryLoop respond et features 0 3 =
        ((retryLoop respond et features 1 2).1, c :: (retryLoop respond et features 1 2).2) :=
      retryLoop_step_error respond et features 0 2 c e1 hc h0 (by decide)
    rw [hfd, t0, t1, t2]

/-- Claim C2, witness: a provider oracle failing on attempts 1 and 2
and succeeding on attempt 3 yields the attempt-3 response with a trace
of exactly three calls. -/
theorem polygon_fetch_retry_policy_witness :
    fetch_data (fun i _ => if i ≤ 1 then .error (.exc i) else .ok (.list []))
      ([("ticker", Value.str "A"), ("multiplier", Value.int 1), ("timespan", Value.str "day"),
        ("from", Value.str "d1"), ("to", Value.str "d2")] : PyDict Value) =
      (.ok ⟨.list [],
        [("ticker", Value.str "A"), ("multiplier", Value.int 1), ("timespan", Value.str "day"),
         ("from", Value.str "d1"), ("to", Value.str "d2")]⟩,
       [.get_aggs (Value.str "A") (Value.int 1) (Value.str "day") (Value.str "d1") (Value.str "d2"),
        .get_aggs (Value.str "A") (Value.int 1) (Value.str "day") (Value.str "d1") (Value.str "d2"),
        .get_aggs (Value.str "A") (Value.int 1) (Value.str "day") (Value.str "d1") (Value.str "d2")]) :=
  (polygon_fetch_retry_policy
    (fun i _ => if i ≤ 1 then .error (.exc i) else .ok (.list []))
    ([("ticker", Value.str "A"), ("multiplier", Value.int 1), ("timespan", Value.str "day"),
      ("from", Value.str "d1"), ("to", Value.str "d2")] : PyDict Value)
    (.get_aggs (Value.str "A") (Value.int 1) (Value.str "day") (Value.str "d1") (Value.str "d2"))
    0 rfl rfl).1 (.exc 0) (.exc 1) (.list []) rfl rfl rfl

/-- Claim C3: for `endpoint_type` 0/1/2/3 (with the keys that the
corresponding lambda reads present in the request), the first provider
call issued by `fetch_data` is the distinct call mapped to that value;
for any other `endpoint_type` value `fetch_data` fails with the
`ValueError` and the provider-call trace is empty — no call is
attempted. -/
theorem polygon_fetch_endpoint_dispatch
    (respond : Nat → ProviderCall → Except PyErr Resp) (features : PyDict Value) :
    (∀ tk m ts fr to_,
      dictGet features "endpoint_type" = some (.int 0) →
      dictGet features "ticker" = some tk → dictGet features "multiplier" = some m →
      dictGet features "timespan" = some ts → dictGet features "from" = some fr →
      dictGet features "to" = some to_ →
      ((fetch_data respond features).2).head? = some (.get_aggs tk m ts fr to_)) ∧
    (∀ fr, dictGet features "endpoint_type" = some (.int 1) →
      dictGet features "from" = some fr →
      ((fetch_data respond features).2).head? = some (.get_grouped_daily_aggs fr)) ∧
    (∀ tk fr, dictGet features "endpoint_type" = some (.int 2) →
      dictGet features "ticker" = some tk → dictGet features "from" = some fr →
      ((fetch_data respond features).2).head? = some (.get_daily_open_close_agg tk fr)) ∧
    (∀ tk, dictGet features "endpoint_type" = some (.int 3) →
      dictGet features "ticker" = some tk →
      ((fetch_data respond features).2).head? = some (.get_previous_close_agg tk)) ∧
    (∀ v, dictGet features "endpoint_type" = some v → endpointIndex v = none →
      fetch_data respond features = (.error (.valueError "Invalid endpoint_type"), [])) := by
  refine ⟨?_, ?_, ?_, ?_, ?_⟩
  · intro tk m ts fr to_ het h1 h2 h3 h4 h5
    have hb : buildCall 0 features = .ok (.get_aggs tk m ts fr to_) := by
      simp [buildCall, h1, h2, h3, h4, h5]
    have het' : endpointIndex ((dictGet features "endpoint_type").getD (.int 0)) = some 0 := by
      rw [het]
      rfl
    rw [fetch_data_valid respond features 0 het']
    exact retryLoop_trace_head respond 0 features _ hb 0 2
  · intro fr het h1
    have hb : buildCall 1 features = .ok (.get_grouped_daily_aggs fr) := by
      simp [buildCall, h1]
    have het' : endpointIndex ((dictGet features "endpoint_type").getD (.int 0)) = some 1 := by
      rw [het]
      rfl
    rw [fetch_data_valid respond features 1 het']
    exact retryLoop_trace_head respond 1 features _ hb 0 2
  · intro tk fr het h1 h2
    have hb : buildCall 2 features = .ok (.get_daily_open_close_agg tk fr) := by
      simp [buildCall, h1, h2]
    have het' : endpointIndex ((dictGet features "endpoint_type").getD (.int 0)) = some 2 := by
      rw [het]
      rfl
    rw [fetch_data_valid respond features 2 het']
    exact retryLoop_trace_head respond 2 features _ hb 0 2
  · intro tk het h1
    have hb : buildCall 3 features = .ok (.get_previous_close_agg tk) := by
      simp [buildCall, h1]
    have het' : endpointIndex ((dictGet features "endpoint_type").getD (.int 0)) = some 3 := by
      rw [het]
      rfl
    rw [fetch_data_valid respond features 3 het']
    exact retryLoop_trace_head respond 3 features _ hb 0 2
  · intro v hv hnone
    have hv' : endpointIndex ((dictGet features "endpoint_type").getD (.int 0)) = none := by
      rw [hv]
      exact hnone
    exact fetch_data_invalid respond features hv'

/-- Claim C3, witness: `endpoint_type = 1` issues the grouped-daily
call first, and `endpoint_type = 7` fails with the `ValueError` before
any provider call. -/
theorem polygon_fetch_endpoint_dispatch_witness :
    ((fetch_data (fun _ _ => .error (.exc 0))
      ([("endpoint_type", Value.int 1), ("from", Value.str "2023-01-01")] : PyDict Value)).2).head? =
      some (.get_grouped_daily_aggs (Value.str "2023-01-01")) ∧
    fetch_data (fun _ _ => .error (.exc 0)) ([("endpoint_type", Value.int 7)] : PyDict Value) =
      (.error (.valueError "Invalid endpoint_type"), []) :=
  ⟨(polygon_fetch_endpoint_dispatch _ _).2.1 (Value.str "2023-01-01") rfl rfl,
   (polygon_fetch_endpoint_dispatch _ _).2.2.2.2 (Value.int 7) rfl rfl⟩

/-- Claim C4: for a valid `endpoint_type`, `parse_response` produces a
dataset with one row per logical record in each of the three payload
shapes: a dict with a `results` list of n records gives n rows, a flat
dict without `results` gives 1 row, and a bare list of n records gives
n rows. -/
theorem polygon_parse_shape_rowcount
    (features : PyDict Value) (et : Nat)
    (het : endpointIndex ((dictGet features "endpoint_type").getD (.int 0)) = some et) :
    (∀ d rs, dictGet d "results" = some (.list rs) →
      ∃ df, (parse_response ⟨.dict d, features⟩).1 = .ok (df, parsersCols et) ∧
        df.length = rs.length) ∧
    (∀ d, containsKey d "results" = false →
      ∃ df, (parse_response ⟨.dict d, features⟩).1 = .ok (df, parsersCols et) ∧
        df.length = 1) ∧
    (∀ items : List Value,
      ∃ df, (parse_response ⟨.list items, features⟩).1 = .ok (df, parsersCols et) ∧
        df.length = items.length) := by
  refine ⟨?_, ?_, ?_⟩
  · intro d rs h
    refine ⟨rs, ?_, rfl⟩
    simp only [parse_response, coerceResp, extractRecords, containsKey, h, Option.isSome_some,
      if_true, Option.getD_some, dfOfRecords, het]
  · intro d h
    refine ⟨[.dict d], ?_, rfl⟩
    simp only [parse_response, coerceResp, extractRecords, h, Bool.false_eq_true, if_false, het]
  · intro items
    refine ⟨items, ?_, rfl⟩
    simp only [parse_response, coerceResp, extractRecords, het]

/-- Claim C4, witness: the three shapes at concrete payloads give 2, 1
and 3 rows respectively. -/
theorem polygon_parse_shape_rowcount_witness :
    (∃ df, (parse_response ⟨.dict [("results",
        Value.list [Value.dict [("v", Value.int 1)], Value.dict [("v", Value.int 2)]])],
        [("endpoint_type", Value.int 0)]⟩).1 = .ok (df, parsersCols 0) ∧ df.length = 2) ∧
    (∃ df, (parse_response ⟨.dict [("o", Value.int 1)],
        [("endpoint_type", Value.int 0)]⟩).1 = .ok (df, parsersCols 0) ∧ df.length = 1) ∧
    (∃ df, (parse_response ⟨.list [Value.int 1, Value.int 2, Value.int 3],
        [("endpoint_type", Value.int 0)]⟩).1 = .ok (df, parsersCols 0) ∧ df.length = 3) := by
  have h := polygon_parse_shape_rowcount ([("endpoint_type", Value.int 0)] : PyDict Value) 0 rfl
  exact ⟨h.1 [("results", Value.list [Value.dict [("v", Value.int 1)],
          Value.dict [("v", Value.int 2)]])] [Value.dict [("v", Value.int 1)],
          Value.dict [("v", Value.int 2)]] rfl,
        h.2.1 [("o", Value.int 1)] rfl,
        h.2.2 [Value.int 1, Value.int 2, Value.int 3]⟩

/-- Claim C8: the statistics computer does not tolerate the empty
dataset — `compute_statistics` on the empty frame (as produced by
parsing a `{'results': []}` payload) raises the pandas `ValueError`
from the unguarded `describe()` call instead of returning empty
structures. -/
theorem polygon_stats_empty_dataset_raises :
    compute_statistics ([] : PolyDF) =
      .error (.valueError "Cannot describe a DataFrame without columns") ∧
    (parse_response ⟨.dict [("results", Value.list [])], []⟩).1 = .ok ([], parse_aggs) :=
  ⟨rfl, rfl⟩

/-- Claim C9: both normalizers are deterministic and effect-free on the
envelope: each `parse_response` returns its envelope unchanged (the
state component of the embedding), and feeding the returned envelope
back in yields the identical result. -/
theorem parse_response_deterministic_pure :
    (∀ pkg : RawPackage,
      (parse_response pkg).2 = pkg ∧
      (parse_response ((parse_response pkg).2)).1 = (parse_response pkg).1) ∧
    (∀ (toDT : String → Except PyErr Int) (toNum : Value → Value) (pkg : AVPackage),
      (av_parse_response toDT toNum pkg).2 = pkg ∧
      (av_parse_response toDT toNum ((av_parse_response toDT toNum pkg).2)).1 =
        (av_parse_response toDT toNum pkg).1) :=
  ⟨fun _ => ⟨rfl, rfl⟩, fun _ _ _ => ⟨rfl, rfl⟩⟩

/-- Claim C10: a request without `endpoint_type` behaves exactly as
`endpoint_type = 0` in both operations: `fetch_data` issues the
`get_aggs` call first, and `parse_response` reports the fixed
endpoint-0 column list `parse_aggs`. -/
theorem polygon_default_endpoint_consistency
    (respond : Nat → ProviderCall → Except PyErr Resp) (features : PyDict Value)
    (hno : dictGet features "endpoint_type" = none) :
    (∀ tk m ts fr to_,
      dictGet features "ticker" = some tk → dictGet features "multiplier" = some m →
      dictGet features "timespan" = some ts → dictGet features "from" = some fr →
      dictGet features "to" = some to_ →
      ((fetch_data respond features).2).head? = some (.get_aggs tk m ts fr to_)) ∧
    (∀ (data : Resp) (df : PolyDF) (cols : List String),
      (parse_response ⟨data, features⟩).1 = .ok (df, cols) → cols = parse_aggs) := by
  constructor
  · intro tk m ts fr to_ h1 h2 h3 h4 h5
    have hb : buildCall 0 features = .ok (.get_aggs tk m ts fr to_) := by
      simp [buildCall, h1, h2, h3, h4, h5]
    have het' : endpointIndex ((dictGet features "endpoint_type").getD (.int 0)) = some 0 := by
      rw [hno]
      rfl
    rw [fetch_data_valid respond features 0 het']
    exact retryLoop_trace_head respond 0 features _ hb 0 2
  · intro data df cols h
    simp only [parse_response, hno, Option.getD_none] at h
    cases hE : extractRecords (coerceResp data) with
    | error e =>
      rw [hE] at h
      exact Except.noConfusion h
    | ok results =>
      rw [hE] at h
      have h' : (Except.ok (results, parse_aggs) : Except PyErr (PolyDF × List String)) =
          .ok (df, cols) := h
      simp only [Except.ok.injEq, Prod.mk.injEq] at h'
      exact h'.2.symm

/-- Claim C10, witness: with no `endpoint_type` key the first provider
call is `get_aggs` and the reported columns are the endpoint-0 list. -/
theorem polygon_default_endpoint_consistency_witness :
    ((fetch_data (fun _ _ => .error (.exc 0))
      ([("ticker", Value.str "AAPL"), ("multiplier", Value.int 1), ("timespan", Value.str "day"),
        ("from", Value.str "d1"), ("to", Value.str "d2")] : PyDict Value)).2).head? =
      some (.get_aggs (Value.str "AAPL") (Value.int 1) (Value.str "day")
        (Value.str "d1") (Value.str "d2")) ∧
    (["volume", "vwap", "open_price", "close_price", "high_price", "low_price",
      "timestamp", "transactions"] : List String) = parse_aggs := by
  have h := polygon_default_endpoint_consistency (fun _ _ => .error (.exc 0))
    ([("ticker", Value.str "AAPL"), ("multiplier", Value.int 1), ("timespan", Value.str "day"),
      ("from", Value.str "d1"), ("to", Value.str "d2")] : PyDict Value) rfl
  exact ⟨h.1 (Value.str "AAPL") (Value.int 1) (Value.str "day") (Value.str "d1") (Value.str "d2")
    rfl rfl rfl rfl rfl,
    h.2 (.list []) [] parse_aggs rfl⟩

/-- Claim C5, counterexample to the claim as stated: the payload
`{"Meta Data": {}}` contains the `Meta Data` key and no key containing
`Time Series`, yet `parse_response` raises the `ValueError` instead of
returning an empty dataset — the code tests the truthiness of the
`Meta Data` value, not the presence of the key. -/
theorem av_parse_falsy_metadata_cex :
    containsKey ([("Meta Data", Value.dict [])] : PyDict Value) "Meta Data" = true ∧
    av_find_ts_key ([("Meta Data", Value.dict [])] : PyDict Value) = none ∧
    (av_parse_response (fun _ => .ok 0) (fun v => v)
      ⟨[("Meta Data", Value.dict [])], []⟩).1 =
      .error (.valueError "Could not find time series data key") :=
  ⟨rfl, rfl, rfl⟩

/-- Claim C5, amended: with no key containing `Time Series`, a payload
whose `Meta Data` value is truthy (for instance a non-empty mapping)
yields an empty dataset and an empty column list with no exception,
while a payload that also lacks the `Meta Data` key raises the
`ValueError`. -/
theorem av_parse_empty_result_amended
    (toDT : String → Except PyErr Int) (toNum : Value → Value) (pkg : AVPackage) :
    (av_find_ts_key pkg.data = none →
      ((dictGet pkg.data "Meta Data").getD .null).truthy = true →
      (av_parse_response toDT toNum pkg).1 = .ok (⟨[], [], []⟩, [])) ∧
    (av_find_ts_key pkg.data = none →
      containsKey pkg.data "Meta Data" = false →
      (av_parse_response toDT toNum pkg).1 =
        .error (.valueError "Could not find time series data key")) := by
  constructor
  · intro h1 h2
    simp [av_parse_response, h1, h2]
  · intro h1 h2
    cases hg : dictGet pkg.data "Meta Data" with
    | some v =>
      rw [containsKey, hg] at h2
      exact Bool.noConfusion h2
    | none =>
      simp [av_parse_response, h1, hg, Value.truthy]

/-- Claim C5, witness for the amended theorem: a payload with a
non-empty `Meta Data` mapping and no time-series key gives the empty
result, and a payload with neither key raises. -/
theorem av_parse_empty_result_amended_witness :
    (av_parse_response (fun _ => .ok 0) (fun v => v)
      ⟨[("Meta Data", Value.dict [("1. Information", Value.str "x")])], []⟩).1 =
      .ok (⟨[], [], []⟩, []) ∧
    (av_parse_response (fun _ => .ok 0) (fun v => v) ⟨[("foo", Value.int 1)], []⟩).1 =
      .error (.valueError "Could not find time series data key") :=
  ⟨(av_parse_empty_result_amended (fun _ => .ok 0) (fun v => v)
      ⟨[("Meta Data", Value.dict [("1. Information", Value.str "x")])], []⟩).1 rfl rfl,
   (av_parse_empty_result_amended (fun _ => .ok 0) (fun v => v)
      ⟨[("foo", Value.int 1)], []⟩).2 rfl rfl⟩

/-- Claim C6: whenever the Alpha Vantage normalizer takes the
time-series path (the key is found, the records tabulate, every index
entry parses as a datetime, the requested column list iterates), the
returned column list is the caller-requested list filtered to the
canonical columns present after renaming — the order-respecting
intersection of the two — and the dataset's own columns are exactly
those names. -/
theorem av_parse_column_intersection
    (toDT : String → Except PyErr Int) (toNum : Value → Value) (pkg : AVPackage)
    (key : String) (entries : PyDict Value) (idx cols0 : List String)
    (cells : List (List Value)) (idxI : List Int) (req : List Value)
    (hkey : av_find_ts_key pkg.data = some key)
    (hts : dictGet pkg.data key = some (.dict entries))
    (hfd : av_from_dict entries = .ok (idx, cols0, cells))
    (hdt : mapExcept toDT idx = .ok idxI)
    (hreq : asIterable ((dictGet pkg.features "columns").getD
        (.list (standard_columns.map Value.str))) = .ok req) :
    ∃ fr : AVFrame,
      (av_parse_response toDT toNum pkg).1 =
        .ok (fr, req.filter (fun c => valMemCols c (av_available (cols0.map av_strip)))) ∧
      fr.cols = (req.filter (fun c =>
        valMemCols c (av_available (cols0.map av_strip)))).filterMap valStr ∧
      ∀ c, c ∈ req.filter (fun c2 => valMemCols c2 (av_available (cols0.map av_strip))) ↔
        c ∈ req ∧ valMemCols c (av_available (cols0.map av_strip)) = true := by
  refine ⟨⟨(avSortRows idxI cells).1,
      (req.filter (fun c => valMemCols c (av_available (cols0.map av_strip)))).filterMap valStr,
      selectCols (av_available (cols0.map av_strip))
        ((selectCols (cols0.map av_strip) (avSortRows idxI cells).2
          (av_available (cols0.map av_strip))).map (fun row => row.map toNum))
        ((req.filter (fun c =>
          valMemCols c (av_available (cols0.map av_strip)))).filterMap valStr)⟩,
    ?_, rfl, ?_⟩
  · simp only [av_parse_response, hkey, hts, Option.getD_some, av_parse_series, hfd, hdt, hreq]
  · intro c
    simp [List.mem_filter]

/-- Claim C6, witness: a daily payload exposing `open` and `close` with
the request `columns = ["close", "bogus"]` yields exactly the `close`
column — `bogus` is dropped silently. -/
theorem av_parse_column_intersection_witness :
    ∃ fr : AVFrame,
      (av_parse_response (fun _ => .ok 0) (fun v => v)
        ⟨[("Meta Data", Value.dict [("i", Value.str "x")]),
          ("Time Series (Daily)", Value.dict
            [("2023-01-02", Value.dict
              [("1. open", Value.str "101"), ("4. close", Value.str "102")])])],
         [("ticker", Value.str "IBM"),
          ("columns", Value.list [Value.str "close", Value.str "bogus"])]⟩).1 =
        .ok (fr, [Value.str "close"]) ∧ fr.cols = ["close"] := by
  obtain ⟨fr, h1, h2, h3⟩ := av_parse_column_intersection (fun _ => .ok 0) (fun v => v)
    ⟨[("Meta Data", Value.dict [("i", Value.str "x")]),
      ("Time Series (Daily)", Value.dict
        [("2023-01-02", Value.dict
          [("1. open", Value.str "101"), ("4. close", Value.str "102")])])],
     [("ticker", Value.str "IBM"),
      ("columns", Value.list [Value.str "close", Value.str "bogus"])]⟩
    "Time Series (Daily)"
    [("2023-01-02", Value.dict [("1. open", Value.str "101"), ("4. close", Value.str "102")])]
    ["2023-01-02"] ["1. open", "4. close"] [[Value.str "101", Value.str "102"]]
    [0] [Value.str "close", Value.str "bogus"]
    rfl rfl rfl rfl rfl
  exact ⟨fr, h1, h2⟩

/-- Claim C7, counterexample to the claim as stated: for an intraday
request that supplies both `month` and an explicit
`outputsize = "compact"`, the query parameters of the GET carry
`outputsize = "compact"` — a supplied `month` does not force the output
size to `full` when the caller specified one. -/
theorem av_intraday_month_outputsize_cex :
    av_build_params "k" ([("ticker", Value.str "IBM"), ("timespan", Value.str "5min"),
      ("outputsize", Value.str "compact"), ("month", Value.str "2023-01")] : PyDict Value) =
      .ok [("symbol", Value.str "IBM"), ("apikey", Value.str "k"), ("datatype", Value.str "json"),
           ("function", Value.str "TIME_SERIES_INTRADAY"), ("interval", Value.str "5min"),
           ("outputsize", Value.str "compact"), ("month", Value.str "2023-01")] ∧
    (av_fetch_data (fun _ => .error (.exc 0)) "k"
      ([("ticker", Value.str "IBM"), ("timespan", Value.str "5min"),
        ("outputsize", Value.str "compact"), ("month", Value.str "2023-01")] : PyDict Value)).2 =
      some [("symbol", Value.str "IBM"), ("apikey", Value.str "k"), ("datatype", Value.str "json"),
            ("function", Value.str "TIME_SERIES_INTRADAY"), ("interval", Value.str "5min"),
            ("outputsize", Value.str "compact"), ("month", Value.str "2023-01")] ∧
    (some (Value.str "compact") ≠ some (Value.str "full")) :=
  ⟨rfl, rfl, by simp⟩

/-- Claim C7, amended: an intraday request carries
`function = TIME_SERIES_INTRADAY` and `interval` equal to the
(lowercased) timespan; `outputsize` defaults to `compact` when no
`month` is supplied and to `full` when one is, but a caller-supplied
`outputsize` is always used as given — `month` does not override it;
a supplied `month` is passed through. -/
theorem av_intraday_request_params_amended
    (apiKey : String) (features : PyDict Value) (tk : Value) (raw : String)
    (htk : dictGet features "ticker" = some tk)
    (hts : dictGet features "timespan" = some (.str raw))
    (hint : strLower raw ∈ (["1min", "5min", "15min", "30min", "60min"] : List String)) :
    ∃ p, av_build_params apiKey features = .ok p ∧
      dictGet p "function" = some (.str "TIME_SERIES_INTRADAY") ∧
      dictGet p "interval" = some (.str (strLower raw)) ∧
      (dictGet features "month" = none →
        dictGet p "outputsize" = some ((dictGet features "outputsize").getD (.str "compact")) ∧
        dictGet p "month" = none) ∧
      (∀ mv, dictGet features "month" = some mv →
        dictGet p "outputsize" = some ((dictGet features "outputsize").getD (.str "full")) ∧
        dictGet p "month" = some mv) ∧
      (∀ os, dictGet features "outputsize" = some os →
        dictGet p "outputsize" = some os) := by
  have hint' : strLower raw = "1min" ∨ strLower raw = "5min" ∨ strLower raw = "15min" ∨
      strLower raw = "30min" ∨ strLower raw = "60min" := by simpa using hint
  have hd : ¬strLower raw = "day" := by rcases hint' with h | h | h | h | h <;> rw [h] <;> decide
  have hw : ¬strLower raw = "week" := by rcases hint' with h | h | h | h | h <;> rw [h] <;> decide
  have hm : ¬strLower raw = "month" := by rcases hint' with h | h | h | h | h <;> rw [h] <;> decide
  have hcont : (["1min", "5min", "15min", "30min", "60min"].contains (strLower raw)) = true := by
    rcases hint' with h | h | h | h | h <;> rw [h] <;> decide
  cases hmv : dictGet features "month" with
  | none =>
    have hck : ¬containsKey features "month" = true := by
      rw [containsKey, hmv]
      exact Bool.noConfusion
    refine ⟨dictSet (dictSet (dictSet
        [("symbol", tk), ("apikey", .str apiKey), ("datatype", .str "json")]
        "function" (.str "TIME_SERIES_INTRADAY")) "interval" (.str (strLower raw)))
        "outputsize" ((dictGet features "outputsize").getD (.str "compact")),
      ?_, ?_, ?_, ?_, ?_, ?_⟩
    · simp only [av_build_params, htk, hts, Option.getD_some]
      rw [if_neg hd, if_neg hw, if_neg hm, if_pos hcont, if_neg hck]
    · simp [dictSet, dictGet]
    · simp [dictSet, dictGet]
    · intro _
      constructor
      · simp [dictSet, dictGet]
      · simp [dictSet, dictGet]
    · intro mv hmv2
      exact Option.noConfusion hmv2
    · intro os hos
      rw [hos]
      simp [dictSet, dictGet]
  | some mv =>
    have hck : containsKey features "month" = true := by
      rw [containsKey, hmv]
      rfl
    refine ⟨dictSet (dictSet (dictSet (dictSet (dictSet
        [("symbol", tk), ("apikey", .str apiKey), ("datatype", .str "json")]
        "function" (.str "TIME_SERIES_INTRADAY")) "interval" (.str (strLower raw)))
        "outputsize" ((dictGet features "outputsize").getD (.str "compact")))
        "month" ((some mv).getD .null))
        "outputsize" ((dictGet features "outputsize").getD (.str "full")),
      ?_, ?_, ?_, ?_, ?_, ?_⟩
    · simp only [av_build_params, htk, hts, Option.getD_some]
      rw [if_neg hd, if_neg hw, if_neg hm, if_pos hcont, if_pos hck, hmv]
      rfl
    · simp [dictSet, dictGet]
    · simp [dictSet, dictGet]
    · intro hmv2
      exact Option.noConfusion hmv2
    · intro mv2 hmv2
      have hmv3 : mv = mv2 := Option.some.inj hmv2
      subst hmv3
      constructor
      · simp [dictSet, dictGet]
      · simp [dictSet, dictGet]
    · intro os hos
      rw [hos]
      simp [dictSet, dictGet]

/-- Claim C7, witness for the amended theorem: a `5min` request with no
`month` and no caller `outputsize` carries `interval = 5min` and the
default `outputsize = compact`. -/
theorem av_intraday_request_params_amended_witness :
    ∃ p, av_build_params "k"
        ([("ticker", Value.str "IBM"), ("timespan", Value.str "5min")] : PyDict Value) = .ok p ∧
      dictGet p "interval" = some (Value.str "5min") ∧
      dictGet p "outputsize" = some (Value.str "compact") := by
  obtain ⟨p, h1, h2, h3, h4, h5, h6⟩ := av_intraday_request_params_amended "k"
    ([("ticker", Value.str "IBM"), ("timespan", Value.str "5min")] : PyDict Value)
    (Value.str "IBM") "5min" rfl rfl (by decide)
  obtain ⟨ho, hmn⟩ := h4 rfl
  exact ⟨p, h1, h3, ho⟩

end MarketIngest
